import Mathlib

/-!
Verification of the dp-frontend-router core against its specification.

The embedding models, from the Go sources:
  * router.go   : the Config record, the route-table and middleware-chain
                  construction in New, the SecurityHandler and
                  healthcheckHandler middleware stages, and first-match-wins
                  dispatch over the registered routes (gorilla mux matches
                  routes in registration order);
  * backend_sqs.go : the analytics Store operation of the SQS backend.

Backend handlers are opaque values in Go (http.Handler fields of Config), so
the route table records, for each pattern, a symbolic reference naming the
Config field (or wrapper combination) that the source binds there.  The two
fallback matcher predicates (hasFileExtMatcher, isKnownBabbageEndpointMatcher)
are referenced but not defined in the sources under inspection; following the
specification they are treated as externally supplied predicates and passed
to the dispatch function as parameters.
-/

namespace DPFR

/-- Symbolic names for the opaque handler values held in Config fields
(router.go lines 27-58). -/
inductive HName where
  | homepageHandler
  | censusAtlasHandler
  | searchHandler
  | analyticsHandler
  | downloadHandler
  | cookieHandler
  | datasetHandler
  | prefixDatasetHandler
  | filterHandler
  | filterFlexHandler
  | feedbackHandler
  | relCalHandler
  | babbageHandler
  | areaProfileHandler
  deriving DecidableEq, Repr

/-- A bound handler in the route table: either a Config field directly, or
one of the wrapper combinations the source applies before registration. -/
inductive Handler where
  /-- a Config handler field registered as-is -/
  | ofCfg (h : HName)
  /-- relcal.Handler(h) wrapping (router.go lines 126-130) -/
  | relcalWrap (h : HName)
  /-- datasetType.Handler(filterClient, datasetClient)(filterH, flexH)
      (router.go line 97) -/
  | datasetTypeWrap (filterH flexH : HName)
  /-- redirects.DynamicRedirectHandler(fromPath, toPath)
      (router.go lines 102-103) -/
  | dynRedirect (fromPath toPath : String)
  /-- the classification subrouter: allRoutes.Handler(map, zebedeeClient,
      byteLimit) middleware over a catch-all route to BabbageHandler
      (router.go lines 142-152); unmatched classification falls to the
      legacy backend -/
  | classifyThen (pageTypeMap : List (String × HName)) (byteLimit : Int)
  deriving DecidableEq, Repr

/-- Route patterns as registered on the mux router.  A gorilla-mux template
ending in a catch-all variable (for example the dataset template is the
literal "/datasets/" followed by a catch-all) matches every path extending
the literal part, including the empty extension, so it is recorded as the
literal with wildcard-extension semantics. -/
inductive Pattern where
  /-- a literal path template with no variables -/
  | lit (s : String)
  /-- a literal followed by a catch-all variable -/
  | wild (s : String)
  /-- router.MatcherFunc(hasFileExtMatcher) (router.go line 136) -/
  | extMatcher
  /-- router.MatcherFunc(isKnownBabbageEndpointMatcher) (router.go line 139) -/
  | knownMatcher
  /-- router.PathPrefix(s).Subrouter() (router.go line 150) -/
  | subtree (s : String)
  deriving DecidableEq, Repr

/-- One registered route: pattern and bound handler, in registration order. -/
abbrev Route := Pattern × Handler

/-- strings.HasPrefix, also the matching rule of a mux template whose
literal part is followed by a catch-all variable: the candidate extends the
literal, possibly by nothing. -/
def strHasPre (pre s : String) : Bool := pre.data.isPrefixOf s.data

/-- The flag and value fields of router.Config (router.go lines 27-58) that
the construction in New reads.  Handler fields are opaque and represented
symbolically by HName, so they are not part of this record. -/
structure Config where
  areaProfileEnabled : Bool
  newDatasetRoutingEnabled : Bool
  contentTypeByteLimit : Int
  legacySearchRedirectsEnabled : Bool
  dataAggregationPagesEnabled : Bool
  searchRoutesEnabled : Bool
  siteDomain : String
  relCalEnabled : Bool
  relCalRoutePfx : String
  useNewReleaseCalendar : Bool
  censusAtlasEnabled : Bool
  datasetFinderEnabled : Bool
  deriving DecidableEq, Repr

/-- The ambient application configuration obtained by config.Get() inside
New (router.go line 70); only its OtelEnabled field is read there. -/
structure AppConfig where
  otelEnabled : Bool
  deriving DecidableEq, Repr

/-- The pair returned by the config.Get() call: a config value and an error
indicator.  router.go lines 70-73 log the error and continue, so both
components flow into the construction. -/
structure ConfigGetResult where
  appConfig : AppConfig
  err : Bool
  deriving DecidableEq, Repr

/-- The middleware stages assembled in New (router.go lines 62-77). -/
inductive Stage where
  | requestID (size : Nat)
  | logMW
  | security
  | healthcheck
  | redirectsMW
  | otelMW (serviceName : String)
  deriving DecidableEq, Repr

/-- The page-type handler map passed to allRoutes.Handler
(router.go lines 142-147): always a dataset-landing-page entry, plus a
dataset entry when NewDatasetRoutingEnabled is set. -/
def classMap (cfg : Config) : List (String × HName) :=
  ("dataset_landing_page", HName.datasetHandler) ::
    (if cfg.newDatasetRoutingEnabled
      then [("dataset", HName.prefixDatasetHandler)] else [])

/-- The explicit static and wildcard routes registered by New before the
two fallback matchers and the classification subrouter, in registration
order (router.go lines 81-133). -/
def explicitRoutes (cfg : Config) : List Route :=
  [(Pattern.lit "/", Handler.ofCfg HName.homepageHandler)]
  ++ (if cfg.censusAtlasEnabled
       then [(Pattern.wild "/census/maps", Handler.ofCfg HName.censusAtlasHandler)]
       else [])
  ++ [(Pattern.lit "/census", Handler.ofCfg HName.homepageHandler)]
  ++ (if cfg.datasetFinderEnabled
       then [(Pattern.lit "/census/find-a-dataset", Handler.ofCfg HName.searchHandler)]
       else [])
  ++ [(Pattern.wild "/redir/", Handler.ofCfg HName.analyticsHandler),
      (Pattern.wild "/download/", Handler.ofCfg HName.downloadHandler),
      (Pattern.wild "/cookies", Handler.ofCfg HName.cookieHandler),
      (Pattern.wild "/datasets/", Handler.ofCfg HName.datasetHandler),
      (Pattern.wild "/filters/",
        Handler.datasetTypeWrap HName.filterHandler HName.filterFlexHandler),
      (Pattern.wild "/filter-outputs/", Handler.ofCfg HName.filterHandler),
      (Pattern.wild "/feedback", Handler.ofCfg HName.feedbackHandler)]
  ++ (if cfg.legacySearchRedirectsEnabled
       then [(Pattern.lit "/searchdata", Handler.dynRedirect "/searchdata" "/search"),
             (Pattern.lit "/searchpublication",
               Handler.dynRedirect "/searchpublication" "/search")]
       else [])
  ++ (if cfg.searchRoutesEnabled
       then (if cfg.dataAggregationPagesEnabled
              then [(Pattern.lit "/alladhocs", Handler.ofCfg HName.searchHandler),
                    (Pattern.lit "/datalist", Handler.ofCfg HName.searchHandler),
                    (Pattern.lit "/allmethodologies", Handler.ofCfg HName.searchHandler),
                    (Pattern.lit "/publishedrequests", Handler.ofCfg HName.searchHandler),
                    (Pattern.lit "/staticlist", Handler.ofCfg HName.searchHandler),
                    (Pattern.lit "/publications", Handler.ofCfg HName.searchHandler),
                    (Pattern.lit "/topicspecificmethodology", Handler.ofCfg HName.searchHandler),
                    (Pattern.lit "/timeseriestool", Handler.ofCfg HName.searchHandler)]
              else [])
            ++ [(Pattern.lit "/search", Handler.ofCfg HName.searchHandler)]
       else [])
  ++ (if cfg.relCalEnabled
       then (if cfg.useNewReleaseCalendar
              then [(Pattern.lit (cfg.relCalRoutePfx ++ "/releasecalendar"),
                      Handler.relcalWrap HName.relCalHandler),
                    (Pattern.wild (cfg.relCalRoutePfx ++ "/releases/"),
                      Handler.relcalWrap HName.relCalHandler)]
              else [(Pattern.lit (cfg.relCalRoutePfx ++ "/releasecalendar"),
                      Handler.relcalWrap HName.babbageHandler),
                    (Pattern.wild (cfg.relCalRoutePfx ++ "/releases/"),
                      Handler.relcalWrap HName.babbageHandler)])
            ++ [(Pattern.lit (cfg.relCalRoutePfx ++ "/calendar/releasecalendar"),
                  Handler.ofCfg HName.relCalHandler)]
       else [])

/-- The full route table built by New, in registration order
(router.go lines 81-152): the explicit routes, then the file-extension
matcher and the known-endpoint matcher both bound to the legacy Babbage
backend, then the classification subrouter whose unmatched requests fall
to the Babbage backend. -/
def routes (cfg : Config) : List Route :=
  explicitRoutes cfg
  ++ [(Pattern.extMatcher, Handler.ofCfg HName.babbageHandler),
      (Pattern.knownMatcher, Handler.ofCfg HName.babbageHandler),
      (Pattern.subtree "/", Handler.classifyThen (classMap cfg) cfg.contentTypeByteLimit)]

/-- The middleware stage list assembled in New (router.go lines 62-77):
the five fixed stages, then the otel stage exactly when the ambient
app configuration enables it.  A failed config.Get() is logged and
construction continues with the returned value (router.go lines 70-73). -/
def middlewareStages (cg : ConfigGetResult) : List Stage :=
  [Stage.requestID 16, Stage.logMW, Stage.security, Stage.healthcheck,
   Stage.redirectsMW]
  ++ (if cg.appConfig.otelEnabled then [Stage.otelMW "dp-frontend-router"] else [])

/-- The result of router.New: the middleware chain wrapped around the
route table (router.go line 79 and line 154). -/
structure RouterOutput where
  stages : List Stage
  table : List Route
  deriving DecidableEq, Repr

/-- router.New (router.go lines 60-155).  The config.Get() result is an
input because it is ambient state the function reads, not a parameter of
the Go function. -/
def New (cfg : Config) (cg : ConfigGetResult) : RouterOutput :=
  { stages := middlewareStages cg, table := routes cfg }

/-- Pattern matching semantics of the registered routes against a request
path.  The two MatcherFunc entries consult the externally supplied
predicates. -/
def patMatches (extP knownP : String → Bool) : Pattern → String → Bool
  | Pattern.lit s, p => p == s
  | Pattern.wild s, p => strHasPre s p
  | Pattern.extMatcher, p => extP p
  | Pattern.knownMatcher, p => knownP p
  | Pattern.subtree s, p => strHasPre s p

/-- First-match-wins dispatch over the registered routes, gorilla mux
matching routes in the order they were registered. -/
def dispatch (rs : List Route) (extP knownP : String → Bool) (p : String) :
    Option Handler :=
  (rs.find? (fun r => patMatches extP knownP r.1 p)).map (fun r => r.2)

/-- A response writer: its accumulated headers, keyed by header name. -/
structure RW where
  headers : List (String × String)
  deriving DecidableEq, Repr

/-- Header().Set(k, v): replace any existing value for the key. -/
def headerSet (w : RW) (k v : String) : RW :=
  { headers := w.headers.filter (fun kv => kv.1 != k) ++ [(k, v)] }

/-- Read back a header value. -/
def getHeader (w : RW) (k : String) : Option String :=
  ((w.headers.filter (fun kv => kv.1 == k)).getLast?).map (fun kv => kv.2)

/-- A handler in the functional middleware model: it receives the response
writer state and the request path and produces the final writer state. -/
abbrev HFun := RW → String → RW

/-- The X-Frame-Options header key (router.go line 21). -/
def HTTPHeaderKeyXFrameOptions : String := "X-Frame-Options"

/-- The allow-list condition of SecurityHandler (router.go lines 160-162):
true exactly when the path is exempt from the frame-options header. -/
def frameExempt (p : String) : Bool :=
  p == "/embed" || strHasPre "/visualisations/" p || strHasPre "/census/maps/" p

/-- router.SecurityHandler (router.go lines 158-167): set
X-Frame-Options: SAMEORIGIN unless the path is on the allow-list, then
invoke the wrapped handler. -/
def SecurityHandler (h : HFun) : HFun :=
  fun w p =>
    let w' := if p != "/embed" &&
                 !(strHasPre "/visualisations/" p) &&
                 !(strHasPre "/census/maps/" p)
              then headerSet w HTTPHeaderKeyXFrameOptions "SAMEORIGIN"
              else w
    h w' p

/-- router.healthcheckHandler (router.go lines 170-180): divert the exact
path /health to the supplied callback and return; pass every other request
to the next handler unchanged. -/
def healthcheckHandler (hc : HFun) (h : HFun) : HFun :=
  fun w p => if p == "/health" then hc w p else h w p

/-!
Analytics: the SQS backend Store operation (backend_sqs.go lines 40-72).
The JSON serializer and the SQS transport are external collaborators, so
they enter the model as function parameters; the creation timestamp is the
RFC3339-formatted current time taken at the start of the call, passed in
as the nowRFC3339 argument.
-/

/-- The analytics event payload assembled by Store
(backend_sqs.go lines 41-51). -/
structure AnalyticsEvent where
  created : String
  url : String
  term : String
  listType : String
  gaID : String
  gID : String
  pageIndex : Int
  linkIndex : Int
  pageSize : Int
  deriving DecidableEq, Repr

/-- A log line emitted by Store. -/
inductive LogEntry where
  | errorLog (event : String)
  | infoLog (event : String) (messageID : String)
  deriving DecidableEq, Repr

/-- The observable effects of one Store call: the log lines written and the
(queueURL, messageBody) pairs handed to SendMessage, in order. -/
structure StoreEffects where
  logs : List LogEntry
  sendAttempts : List (String × String)
  deriving DecidableEq, Repr

/-- The sqsBackend state (backend_sqs.go lines 21-24): the transport call
and the configured queue URL.  The transport takes the queue URL and the
message body and yields either an error or a message id. -/
structure SqsBackend where
  sendMessage : String → String → Except String String
  queueURL : String

/-- The event payload built at the top of Store (backend_sqs.go lines
41-51), with the created field stamped from the formatted current time. -/
def mkAnalyticsEvent (nowRFC3339 url term listType gaID gID : String)
    (pageIndex linkIndex pageSize : Int) : AnalyticsEvent :=
  { created := nowRFC3339, url := url, term := term, listType := listType,
    gaID := gaID, gID := gID, pageIndex := pageIndex,
    linkIndex := linkIndex, pageSize := pageSize }

/-- sqsBackend.Store (backend_sqs.go lines 40-72).  Builds the event,
marshals it, and sends it once; a marshal error or a send error is logged
and the function returns; there is no retry and no error is returned to
the caller (the Go function has no return value). -/
def Store (b : SqsBackend) (marshal : AnalyticsEvent → Except String String)
    (nowRFC3339 url term listType gaID gID : String)
    (pageIndex linkIndex pageSize : Int) : StoreEffects :=
  let data : AnalyticsEvent :=
    mkAnalyticsEvent nowRFC3339 url term listType gaID gID
      pageIndex linkIndex pageSize
  match marshal data with
  | Except.error _ => { logs := [LogEntry.errorLog "error marshaling json"],
                        sendAttempts := [] }
  | Except.ok jb =>
    match b.sendMessage b.queueURL jb with
    | Except.error _ =>
        { logs := [LogEntry.errorLog "error sending sqs message"],
          sendAttempts := [(b.queueURL, jb)] }
    | Except.ok mid =>
        { logs := [LogEntry.infoLog "stored analytics data in SQS" mid],
          sendAttempts := [(b.queueURL, jb)] }

/-! Theorems -/

/-- A Config with every feature flag disabled, used as the base point of
concrete instances. -/
def cfgAllOff : Config :=
  { areaProfileEnabled := false, newDatasetRoutingEnabled := false,
    contentTypeByteLimit := 0, legacySearchRedirectsEnabled := false,
    dataAggregationPagesEnabled := false, searchRoutesEnabled := false,
    siteDomain := "ons.gov.uk", relCalEnabled := false, relCalRoutePfx := "",
    useNewReleaseCalendar := false, censusAtlasEnabled := false,
    datasetFinderEnabled := false }

/-- A successful ambient config.Get() result with tracing disabled. -/
def cgQuiet : ConfigGetResult :=
  { appConfig := { otelEnabled := false }, err := false }

theorem getHeader_headerSet (w : RW) (k v : String) :
    getHeader (headerSet w k v) k = some v := by
  simp [getHeader, headerSet, List.filter_append, List.filter_filter]

theorem mem_ite_nil {α : Type} (a : α) (c : Prop) [Decidable c]
    (l : List α) : (a ∈ if c then l else []) ↔ (c ∧ a ∈ l) := by
  split <;> simp [*]

/-- Claim C5: the security middleware sets X-Frame-Options: SAMEORIGIN on
the response writer before the downstream handler runs, for every path
except exactly /embed, prefixes of /visualisations/, and prefixes of
/census/maps/, in which case the writer is passed downstream unchanged. -/
theorem securityHandler_sets_frame_options (h : HFun) (w : RW) (p : String) :
    SecurityHandler h w p =
      h (if frameExempt p then w
          else headerSet w HTTPHeaderKeyXFrameOptions "SAMEORIGIN") p
    ∧ getHeader (headerSet w HTTPHeaderKeyXFrameOptions "SAMEORIGIN")
        HTTPHeaderKeyXFrameOptions = some "SAMEORIGIN"
    ∧ frameExempt p = (p == "/embed" || strHasPre "/visualisations/" p
        || strHasPre "/census/maps/" p) := by
  refine ⟨?_, getHeader_headerSet w _ _, rfl⟩
  unfold SecurityHandler frameExempt
  by_cases h1 : p = "/embed" <;>
    cases h2 : strHasPre "/visualisations/" p <;>
      cases h3 : strHasPre "/census/maps/" p <;> simp [h1, h2, h3]

/-- Claim C8: the health-check middleware diverts exactly the path /health
to the supplied callback - the downstream handler is never consulted there,
as witnessed by independence from the downstream handler - and passes every
other path to the downstream handler unchanged; and for every Config and
ambient config result, the chain built by New places the health-check stage
fourth, before the route table, so the behaviour is flag-independent. -/
theorem healthcheck_short_circuit (hc h h2 : HFun) (w : RW) (p : String)
    (cfg : Config) (cg : ConfigGetResult) :
    healthcheckHandler hc h w p = (if p = "/health" then hc w p else h w p)
    ∧ healthcheckHandler hc h w "/health" = hc w "/health"
    ∧ healthcheckHandler hc h w "/health" = healthcheckHandler hc h2 w "/health"
    ∧ (New cfg cg).stages.take 5 =
        [Stage.requestID 16, Stage.logMW, Stage.security, Stage.healthcheck,
         Stage.redirectsMW] := by
  refine ⟨?_, rfl, rfl, ?_⟩
  · simp [healthcheckHandler]
  · cases hb : cg.appConfig.otelEnabled <;> simp [New, middlewareStages, hb]

/-- Two strings of which neither is a byte prefix of the other can never
both be prefixes of the same path. -/
theorem strHasPre_incomp {a b p : String}
    (hab : a.data.isPrefixOf b.data = false)
    (hba : b.data.isPrefixOf a.data = false)
    (ha : strHasPre a p = true) : strHasPre b p = false := by
  simp only [Bool.eq_false_iff, ne_eq, List.isPrefixOf_iff_prefix] at hab hba
  cases hb : strHasPre b p
  · rfl
  · exfalso
    have ha2 : a.data <+: p.data := by simpa [strHasPre] using ha
    have hb2 : b.data <+: p.data := by simpa [strHasPre] using hb
    rcases List.prefix_or_prefix_of_prefix ha2 hb2 with h | h
    · exact hab h
    · exact hba h

/-- Claim C10: the frame-options allow-list is exact-match for /embed and
slash-prefix for the other two entries.  Every strict sub-path of /embed -
any path extending the literal "/embed/" - is not exempt, and the security
middleware hands the downstream handler a writer with the
X-Frame-Options: SAMEORIGIN header already set there; the exact paths
/visualisations and /census/maps (no trailing slash) are likewise not
exempt and receive the header, while /embed itself is exempt; and in
general a path is exempt exactly when it equals /embed or extends
"/visualisations/" or "/census/maps/". -/
theorem frame_options_allowlist_boundaries (h : HFun) (w : RW) (p : String)
    (hsub : strHasPre "/embed/" p = true) :
    frameExempt p = false
    ∧ SecurityHandler h w p =
        h (headerSet w HTTPHeaderKeyXFrameOptions "SAMEORIGIN") p
    ∧ frameExempt "/visualisations" = false
    ∧ frameExempt "/census/maps" = false
    ∧ getHeader (SecurityHandler (fun w2 _ => w2) { headers := [] }
        "/visualisations") HTTPHeaderKeyXFrameOptions = some "SAMEORIGIN"
    ∧ getHeader (SecurityHandler (fun w2 _ => w2) { headers := [] }
        "/census/maps") HTTPHeaderKeyXFrameOptions = some "SAMEORIGIN"
    ∧ frameExempt "/embed" = true
    ∧ (∀ q, frameExempt q = true ↔
        (q = "/embed" ∨ strHasPre "/visualisations/" q = true
          ∨ strHasPre "/census/maps/" q = true)) := by
  have hne : (p == "/embed") = false := by
    cases hq : p == "/embed"
    · rfl
    · exfalso
      have hp : p = "/embed" := by simpa using hq
      rw [hp] at hsub
      exact absurd hsub (by decide)
  have hv : strHasPre "/visualisations/" p = false :=
    strHasPre_incomp (by decide) (by decide) hsub
  have hc : strHasPre "/census/maps/" p = false :=
    strHasPre_incomp (by decide) (by decide) hsub
  have hne2 : ¬(p = "/embed") := by simpa using hne
  refine ⟨?_, ?_, by decide, by decide, by decide, by decide, by decide, ?_⟩
  · simp [frameExempt, hne, hv, hc]
  · simp [SecurityHandler, hne2, hv, hc]
  · intro q
    simp [frameExempt, or_assoc]

/-- Concrete instance of the C10 theorem at the strict sub-path /embed/x:
it is not exempt and the downstream handler receives the writer with the
header set. -/
theorem frame_options_allowlist_boundaries_witness :
    frameExempt "/embed/x" = false
    ∧ SecurityHandler (fun w _ => w) { headers := [] } "/embed/x" =
        (fun w _ => w)
          (headerSet { headers := [] } HTTPHeaderKeyXFrameOptions "SAMEORIGIN")
          "/embed/x" := by
  have h := frame_options_allowlist_boundaries (fun w _ => w)
    { headers := [] } "/embed/x" (by decide)
  exact ⟨h.1, h.2.1⟩

/-- Claim C6: Store stamps the event with the creation time taken at the
call, attempts at most one submission, and that submission goes to the
configured queue; a marshal failure means nothing is sent and only an
error log results, a transport failure is only logged; in every case the
call returns normally with effects and no error (the return type carries
no error channel), and no retry happens. -/
theorem store_fire_and_forget (b : SqsBackend)
    (marshal : AnalyticsEvent → Except String String)
    (nowRFC3339 url term listType gaID gID : String)
    (pageIndex linkIndex pageSize : Int) :
    (mkAnalyticsEvent nowRFC3339 url term listType gaID gID
        pageIndex linkIndex pageSize).created = nowRFC3339
    ∧ (Store b marshal nowRFC3339 url term listType gaID gID
        pageIndex linkIndex pageSize).sendAttempts.length ≤ 1
    ∧ (∀ e, marshal (mkAnalyticsEvent nowRFC3339 url term listType gaID gID
          pageIndex linkIndex pageSize) = Except.error e →
        Store b marshal nowRFC3339 url term listType gaID gID
            pageIndex linkIndex pageSize =
          { logs := [LogEntry.errorLog "error marshaling json"],
            sendAttempts := [] })
    ∧ (∀ jb, marshal (mkAnalyticsEvent nowRFC3339 url term listType gaID gID
          pageIndex linkIndex pageSize) = Except.ok jb →
        (Store b marshal nowRFC3339 url term listType gaID gID
            pageIndex linkIndex pageSize).sendAttempts = [(b.queueURL, jb)]
        ∧ (∀ e, b.sendMessage b.queueURL jb = Except.error e →
            (Store b marshal nowRFC3339 url term listType gaID gID
              pageIndex linkIndex pageSize).logs =
              [LogEntry.errorLog "error sending sqs message"])
        ∧ (∀ mid, b.sendMessage b.queueURL jb = Except.ok mid →
            (Store b marshal nowRFC3339 url term listType gaID gID
              pageIndex linkIndex pageSize).logs =
              [LogEntry.infoLog "stored analytics data in SQS" mid])) := by
  refine ⟨rfl, ?_, ?_, ?_⟩
  · unfold Store
    cases hm : marshal (mkAnalyticsEvent nowRFC3339 url term listType gaID gID
        pageIndex linkIndex pageSize) with
    | error e => simp [hm]
    | ok jb =>
      cases hs : b.sendMessage b.queueURL jb with
      | error e => simp [hm, hs]
      | ok mid => simp [hm, hs]
  · intro e hm
    simp [Store, hm]
  · intro jb hm
    refine ⟨?_, ?_, ?_⟩
    · cases hs : b.sendMessage b.queueURL jb with
      | error e => simp [Store, hm, hs]
      | ok mid => simp [Store, hm, hs]
    · intro e hs
      simp [Store, hm, hs]
    · intro mid hs
      simp [Store, hm, hs]

/-- Concrete instance of the C6 theorem: marshal succeeds, the transport
fails, and the call still returns with a single attempted send to the
configured queue and an error log. -/
theorem store_fire_and_forget_witness :
    (Store { sendMessage := fun _ _ => Except.error "boom",
             queueURL := "queue-url" }
        (fun _ => Except.ok "body") "2026-10-11T00:00:00Z" "u" "t" "l"
        "ga" "gid" 1 2 3).sendAttempts = [("queue-url", "body")]
    ∧ (Store { sendMessage := fun _ _ => Except.error "boom",
               queueURL := "queue-url" }
        (fun _ => Except.ok "body") "2026-10-11T00:00:00Z" "u" "t" "l"
        "ga" "gid" 1 2 3).logs =
        [LogEntry.errorLog "error sending sqs message"] := by
  have h := store_fire_and_forget
    { sendMessage := fun _ _ => Except.error "boom", queueURL := "queue-url" }
    (fun _ => Except.ok "body") "2026-10-11T00:00:00Z" "u" "t" "l"
    "ga" "gid" 1 2 3
  obtain ⟨-, -, -, h4⟩ := h
  obtain ⟨ha, hb, -⟩ := h4 "body" rfl
  exact ⟨ha, hb "boom" rfl⟩

/-- Claim C1 counterexample: at a concrete Config with release-calendar
enabled, the literal /calendar/releasecalendar alias is bound to the
release-calendar handler, and no binding of that path to the legacy
rendering backend handler (BabbageHandler) is in the table - under either
value of the second flag.  So the alias does not resolve to the legacy
backend as claimed. -/
theorem calendar_alias_not_legacy_cex :
    (Pattern.lit "/calendar/releasecalendar", Handler.ofCfg HName.relCalHandler)
      ∈ (New { cfgAllOff with relCalEnabled := true } cgQuiet).table
    ∧ (Pattern.lit "/calendar/releasecalendar", Handler.ofCfg HName.babbageHandler)
      ∉ (New { cfgAllOff with relCalEnabled := true } cgQuiet).table
    ∧ (Pattern.lit "/calendar/releasecalendar", Handler.ofCfg HName.babbageHandler)
      ∉ (New { cfgAllOff with
                relCalEnabled := true,
                useNewReleaseCalendar := true } cgQuiet).table
    ∧ Handler.ofCfg HName.relCalHandler ≠ Handler.ofCfg HName.babbageHandler := by
  decide

/-- Claim C1 amended: whenever release-calendar is enabled, the table binds
the literal {prefix}/calendar/releasecalendar to the release-calendar
handler (RelCalHandler, not the legacy rendering backend), independent of
the second flag; and the second flag selects exactly one of the two
relcal-wrapped alternatives (RelCalHandler when set, BabbageHandler when
not) for {prefix}/releasecalendar and {prefix}/releases/*. -/
theorem relcal_routes_spec (cfg : Config) (cg : ConfigGetResult)
    (hrc : cfg.relCalEnabled = true) :
    (Pattern.lit (cfg.relCalRoutePfx ++ "/calendar/releasecalendar"),
      Handler.ofCfg HName.relCalHandler) ∈ (New cfg cg).table
    ∧ ((Pattern.lit (cfg.relCalRoutePfx ++ "/releasecalendar"),
        Handler.relcalWrap HName.relCalHandler) ∈ (New cfg cg).table
        ↔ cfg.useNewReleaseCalendar = true)
    ∧ ((Pattern.lit (cfg.relCalRoutePfx ++ "/releasecalendar"),
        Handler.relcalWrap HName.babbageHandler) ∈ (New cfg cg).table
        ↔ cfg.useNewReleaseCalendar = false)
    ∧ ((Pattern.wild (cfg.relCalRoutePfx ++ "/releases/"),
        Handler.relcalWrap HName.relCalHandler) ∈ (New cfg cg).table
        ↔ cfg.useNewReleaseCalendar = true)
    ∧ ((Pattern.wild (cfg.relCalRoutePfx ++ "/releases/"),
        Handler.relcalWrap HName.babbageHandler) ∈ (New cfg cg).table
        ↔ cfg.useNewReleaseCalendar = false) := by
  cases hu : cfg.useNewReleaseCalendar <;>
    simp [New, routes, explicitRoutes, hrc, hu, mem_ite_nil, List.mem_append]

/-- Concrete instance of the C1 amended theorem at a Config with
release-calendar enabled and the second flag off. -/
theorem relcal_routes_spec_witness :
    (Pattern.lit ("" ++ "/calendar/releasecalendar"),
      Handler.ofCfg HName.relCalHandler)
      ∈ (New { cfgAllOff with relCalEnabled := true } cgQuiet).table :=
  (relcal_routes_spec { cfgAllOff with relCalEnabled := true } cgQuiet rfl).1

/-- Claim C2 counterexample: at a concrete Config, construction with a
failed configuration load returns exactly the router that a successful
load returns - a full, nonempty route table.  Construction does not abort
on a construction failure; router.go lines 70-73 log the error and
continue, and New validates no handler. -/
theorem construction_not_fatal_cex :
    New cfgAllOff { appConfig := { otelEnabled := false }, err := true } =
      New cfgAllOff { appConfig := { otelEnabled := false }, err := false }
    ∧ (New cfgAllOff
        { appConfig := { otelEnabled := false }, err := true }).table ≠ [] := by
  decide

/-- Claim C2 amended: construction never aborts - for every Config and
every ambient config.Get() outcome, New returns the same router whether
the load reported an error or not, and the returned table is nonempty, so
serving proceeds.  No nil-handler validation exists in New: a missing
required handler is registered as-is and can only surface when a request
is dispatched to it. -/
theorem construction_never_aborts (cfg : Config) (a : AppConfig) (e : Bool) :
    New cfg { appConfig := a, err := e } =
      New cfg { appConfig := a, err := false }
    ∧ (New cfg { appConfig := a, err := e }).table ≠ [] := by
  constructor
  · rfl
  · simp [New, routes, explicitRoutes]

/-- Claim C3 counterexample: two invocations of New with the identical
Config value but different ambient config.Get() results (tracing toggle
flipped) return different routers - the middleware chain depends on
ambient global state looked up during construction. -/
theorem new_ambient_dependence_cex :
    New cfgAllOff { appConfig := { otelEnabled := true }, err := false } ≠
      New cfgAllOff { appConfig := { otelEnabled := false }, err := false } := by
  decide

/-- Claim C3 amended: the route table is a pure function of Config alone;
the whole router output additionally depends only on the OtelEnabled field
of the ambient config.Get() result (in particular not on its error flag).
For a fixed ambient tracing toggle, identical Configs yield identical
routers. -/
theorem new_deterministic_given_ambient (cfg : Config)
    (cg cg2 : ConfigGetResult)
    (hot : cg.appConfig.otelEnabled = cg2.appConfig.otelEnabled) :
    (New cfg cg).table = (New cfg cg2).table
    ∧ New cfg cg = New cfg cg2 := by
  refine ⟨rfl, ?_⟩
  simp [New, middlewareStages, hot]

/-- Concrete instance of the C3 amended theorem: same Config, same tracing
toggle, different error flags - identical routers. -/
theorem new_deterministic_given_ambient_witness :
    New cfgAllOff { appConfig := { otelEnabled := true }, err := true } =
      New cfgAllOff { appConfig := { otelEnabled := true }, err := false } :=
  (new_deterministic_given_ambient cfgAllOff
    { appConfig := { otelEnabled := true }, err := true }
    { appConfig := { otelEnabled := true }, err := false } rfl).2

theorem routes_mono_censusAtlas (c : Config) :
    (routes { c with censusAtlasEnabled := false }).Sublist
      (routes { c with censusAtlasEnabled := true })
    ∧ (routes { c with censusAtlasEnabled := false }).length <
      (routes { c with censusAtlasEnabled := true }).length := by
  refine ⟨?_, ?_⟩ <;> simp [routes, explicitRoutes, classMap]

theorem routes_mono_datasetFinder (c : Config) :
    (routes { c with datasetFinderEnabled := false }).Sublist
      (routes { c with datasetFinderEnabled := true })
    ∧ (routes { c with datasetFinderEnabled := false }).length <
      (routes { c with datasetFinderEnabled := true }).length := by
  refine ⟨?_, ?_⟩ <;> simp [routes, explicitRoutes, classMap]

theorem routes_mono_legacySearch (c : Config) :
    (routes { c with legacySearchRedirectsEnabled := false }).Sublist
      (routes { c with legacySearchRedirectsEnabled := true })
    ∧ (routes { c with legacySearchRedirectsEnabled := false }).length <
      (routes { c with legacySearchRedirectsEnabled := true }).length := by
  refine ⟨?_, ?_⟩ <;> simp [routes, explicitRoutes, classMap]

theorem routes_mono_searchRoutes (c : Config) :
    (routes { c with searchRoutesEnabled := false }).Sublist
      (routes { c with searchRoutesEnabled := true })
    ∧ (routes { c with searchRoutesEnabled := false }).length <
      (routes { c with searchRoutesEnabled := true }).length := by
  refine ⟨?_, ?_⟩ <;>
    cases hd : c.dataAggregationPagesEnabled <;>
      simp [routes, explicitRoutes, classMap, hd] <;>
      repeat
        first
        | exact List.Sublist.refl _
        | apply List.Sublist.cons₂
        | apply List.Sublist.cons

theorem routes_mono_relCal (c : Config) :
    (routes { c with relCalEnabled := false }).Sublist
      (routes { c with relCalEnabled := true })
    ∧ (routes { c with relCalEnabled := false }).length <
      (routes { c with relCalEnabled := true }).length := by
  refine ⟨?_, ?_⟩ <;>
    cases hu : c.useNewReleaseCalendar <;>
      simp [routes, explicitRoutes, classMap, hu] <;>
      repeat
        first
        | exact List.Sublist.refl _
        | apply List.Sublist.cons₂
        | apply List.Sublist.cons

theorem routes_mono_dataAgg (c : Config) :
    (routes { c with
        searchRoutesEnabled := true,
        dataAggregationPagesEnabled := false }).Sublist
      (routes { c with
        searchRoutesEnabled := true, dataAggregationPagesEnabled := true })
    ∧ (routes { c with
        searchRoutesEnabled := true,
        dataAggregationPagesEnabled := false }).length <
      (routes { c with
        searchRoutesEnabled := true,
        dataAggregationPagesEnabled := true }).length := by
  refine ⟨?_, ?_⟩ <;> simp [routes, explicitRoutes, classMap] <;>
    repeat
      first
      | exact List.Sublist.refl _
      | apply List.Sublist.cons₂
      | apply List.Sublist.cons

theorem routes_const_areaProfile (c : Config) :
    routes { c with areaProfileEnabled := true } =
      routes { c with areaProfileEnabled := false } := rfl

theorem routes_len_useNew (c : Config) :
    (routes { c with useNewReleaseCalendar := true }).length =
      (routes { c with useNewReleaseCalendar := false }).length := by
  cases hr : c.relCalEnabled <;> simp [routes, explicitRoutes, classMap, hr]

theorem routes_len_newDatasetRouting (c : Config) :
    (routes { c with newDatasetRoutingEnabled := true }).length =
      (routes { c with newDatasetRoutingEnabled := false }).length := by
  simp [routes, explicitRoutes, classMap]

/-- Claim C4 counterexample: the new-release-calendar flag, taken singly
with all others held fixed (release-calendar on), does not strictly add
reachable routes - the table length is unchanged - and it removes routes
that were reachable with the flag disabled: the Babbage-wrapped
/releasecalendar binding disappears. -/
theorem flag_monotonicity_cex :
    (New { cfgAllOff with
        relCalEnabled := true,
        useNewReleaseCalendar := true } cgQuiet).table.length =
      (New { cfgAllOff with relCalEnabled := true } cgQuiet).table.length
    ∧ (Pattern.lit "/releasecalendar", Handler.relcalWrap HName.babbageHandler)
        ∈ (New { cfgAllOff with relCalEnabled := true } cgQuiet).table
    ∧ (Pattern.lit "/releasecalendar", Handler.relcalWrap HName.babbageHandler)
        ∉ (New { cfgAllOff with
            relCalEnabled := true,
            useNewReleaseCalendar := true } cgQuiet).table := by
  decide

/-- Claim C4 amended: enabling any one of the five route-adding flags
(census-atlas, dataset-finder, legacy-search-redirects, search-routes,
release-calendar), all others held fixed, strictly adds reachable routes
while keeping every previously registered route, in registration order, as
a sublist; the data-aggregation flag does the same provided search-routes
is set.  The remaining flags add no routes: the area-profile flag leaves
the table unchanged, and the new-dataset-routing and new-release-calendar
flags leave the number of routes unchanged (they change which handler is
bound, not which patterns are registered). -/
theorem flag_additions_monotone (cfg : Config) :
    ((routes { cfg with censusAtlasEnabled := false }).Sublist
        (routes { cfg with censusAtlasEnabled := true })
      ∧ (routes { cfg with censusAtlasEnabled := false }).length <
        (routes { cfg with censusAtlasEnabled := true }).length)
    ∧ ((routes { cfg with datasetFinderEnabled := false }).Sublist
        (routes { cfg with datasetFinderEnabled := true })
      ∧ (routes { cfg with datasetFinderEnabled := false }).length <
        (routes { cfg with datasetFinderEnabled := true }).length)
    ∧ ((routes { cfg with legacySearchRedirectsEnabled := false }).Sublist
        (routes { cfg with legacySearchRedirectsEnabled := true })
      ∧ (routes { cfg with legacySearchRedirectsEnabled := false }).length <
        (routes { cfg with legacySearchRedirectsEnabled := true }).length)
    ∧ ((routes { cfg with searchRoutesEnabled := false }).Sublist
        (routes { cfg with searchRoutesEnabled := true })
      ∧ (routes { cfg with searchRoutesEnabled := false }).length <
        (routes { cfg with searchRoutesEnabled := true }).length)
    ∧ ((routes { cfg with relCalEnabled := false }).Sublist
        (routes { cfg with relCalEnabled := true })
      ∧ (routes { cfg with relCalEnabled := false }).length <
        (routes { cfg with relCalEnabled := true }).length)
    ∧ ((routes { cfg with
          searchRoutesEnabled := true,
          dataAggregationPagesEnabled := false }).Sublist
        (routes { cfg with
          searchRoutesEnabled := true, dataAggregationPagesEnabled := true })
      ∧ (routes { cfg with
          searchRoutesEnabled := true,
          dataAggregationPagesEnabled := false }).length <
        (routes { cfg with
          searchRoutesEnabled := true,
          dataAggregationPagesEnabled := true }).length)
    ∧ routes { cfg with areaProfileEnabled := true } =
        routes { cfg with areaProfileEnabled := false }
    ∧ (routes { cfg with useNewReleaseCalendar := true }).length =
        (routes { cfg with useNewReleaseCalendar := false }).length
    ∧ (routes { cfg with newDatasetRoutingEnabled := true }).length =
        (routes { cfg with newDatasetRoutingEnabled := false }).length :=
  ⟨routes_mono_censusAtlas cfg, routes_mono_datasetFinder cfg,
   routes_mono_legacySearch cfg, routes_mono_searchRoutes cfg,
   routes_mono_relCal cfg, routes_mono_dataAgg cfg,
   routes_const_areaProfile cfg, routes_len_useNew cfg,
   routes_len_newDatasetRouting cfg⟩

/-- Claim C7: for every request path (request paths begin with a slash),
dispatch resolves by the fixed precedence: the first matching explicit
static route wins; otherwise the extension fallback diverts to the legacy
Babbage backend; otherwise the known-endpoint fallback diverts to Babbage;
otherwise the request reaches the classification subrouter (whose own
unmatched requests fall to Babbage).  In particular a path accepted by the
extension predicate is routed to the legacy backend whenever no explicit
route matches first, bypassing classification. -/
theorem dispatch_precedence (cfg : Config) (cg : ConfigGetResult)
    (extP knownP : String → Bool) (p : String)
    (hp : strHasPre "/" p = true) :
    dispatch (New cfg cg).table extP knownP p =
      (match (explicitRoutes cfg).find?
          (fun r => patMatches extP knownP r.1 p) with
       | some r => some r.2
       | none =>
          if extP p then some (Handler.ofCfg HName.babbageHandler)
          else if knownP p then some (Handler.ofCfg HName.babbageHandler)
          else some (Handler.classifyThen (classMap cfg)
                      cfg.contentTypeByteLimit))
    ∧ ((explicitRoutes cfg).find?
          (fun r => patMatches extP knownP r.1 p) = none →
        extP p = true →
        dispatch (New cfg cg).table extP knownP p =
          some (Handler.ofCfg HName.babbageHandler)) := by
  constructor
  · show dispatch (routes cfg) extP knownP p = _
    unfold dispatch routes
    rw [List.find?_append]
    cases hf : (explicitRoutes cfg).find?
        (fun r => patMatches extP knownP r.1 p) with
    | some r => simp
    | none =>
      cases he : extP p <;> cases hk : knownP p <;>
        simp [List.find?, patMatches, he, hk, hp]
  · intro hf he
    show dispatch (routes cfg) extP knownP p = _
    unfold dispatch routes
    rw [List.find?_append, hf]
    simp [List.find?, patMatches, he]

/-- Concrete instance of the C7 theorem: with all flags off, a path the
extension predicate accepts and no explicit route matches is dispatched to
the legacy Babbage backend. -/
theorem dispatch_precedence_witness :
    dispatch (New cfgAllOff cgQuiet).table (fun s => s == "/report.pdf")
        (fun _ => false) "/report.pdf" =
      some (Handler.ofCfg HName.babbageHandler) :=
  (dispatch_precedence cfgAllOff cgQuiet (fun s => s == "/report.pdf")
      (fun _ => false) "/report.pdf" (by decide)).2 (by decide) (by decide)

/-- Claim C9: the exact path /census is registered to the homepage handler
(the handler also bound to the exact path /) for every Config and flag
combination, and dispatches there; among the census registrations only the
census-maps sub-tree and /census/find-a-dataset are flag-conditional,
present exactly when their respective flags are set. -/
theorem census_homepage_unconditional (cfg : Config) (cg : ConfigGetResult)
    (extP knownP : String → Bool) :
    (Pattern.lit "/census", Handler.ofCfg HName.homepageHandler)
      ∈ (New cfg cg).table
    ∧ (Pattern.lit "/", Handler.ofCfg HName.homepageHandler)
      ∈ (New cfg cg).table
    ∧ ((Pattern.wild "/census/maps", Handler.ofCfg HName.censusAtlasHandler)
        ∈ (New cfg cg).table ↔ cfg.censusAtlasEnabled = true)
    ∧ ((Pattern.lit "/census/find-a-dataset", Handler.ofCfg HName.searchHandler)
        ∈ (New cfg cg).table ↔ cfg.datasetFinderEnabled = true)
    ∧ dispatch (New cfg cg).table extP knownP "/census" =
        some (Handler.ofCfg HName.homepageHandler) := by
  have hm : strHasPre "/census/maps" "/census" = false := by decide
  have h0 : ("/census" == "/") = false := by decide
  have h1 : ("/census" == "/census") = true := by decide
  refine ⟨?_, ?_, ?_, ?_, ?_⟩
  · simp [New, routes, explicitRoutes, mem_ite_nil]
  · simp [New, routes, explicitRoutes, mem_ite_nil]
  · cases hu : cfg.useNewReleaseCalendar <;>
      simp [New, routes, explicitRoutes, mem_ite_nil, hu]
  · cases hu : cfg.useNewReleaseCalendar <;>
      simp [New, routes, explicitRoutes, mem_ite_nil, hu]
  · cases hca : cfg.censusAtlasEnabled <;>
      simp [dispatch, New, routes, explicitRoutes, hca, List.find?,
        patMatches, hm, h0, h1]

end DPFR
